import Mathlib

/-!
Shallow embedding of `src/app.py` (an LLM build-and-deploy web service).

The app has three parts:
* `notify_evaluator` — POSTs a payload to an evaluation URL with exponential
  backoff (max 5 attempts, delays 1, 2, 4, 8, … doubling after every failure);
* `process_build_task` — the background task: two LLM calls (HTML, then
  README), delete-then-create of the GitHub repo `llm-app-<task>`, four
  `create_file` commits, branch/sha read, pages-URL computation, and an
  optional notification;
* `handle_build_request` — the Flask handler: checks the `secret` field of the
  JSON body against the `MY_APP_SECRET` environment variable, returns 403 on
  mismatch, otherwise spawns the background task and returns 200.

JSON object bodies are modelled as association lists `List (String × Option
String)`; a value of `none` is JSON `null` (Python `None`), so `dget` models
Python's `dict.get` (absent key and `null` value both give `None`).  Python
truthiness of a possibly-absent body is modelled explicitly (`None` and the
empty dict are falsy).  External effects (LLM calls, GitHub API calls, HTTP
POSTs, sleeps) are recorded in an explicit trace, and the fallible LLM and the
notification target are supplied as oracles in an `Env`.
-/

/-- A JSON object: keys to string-or-null values (`none` = JSON `null`). -/
abbrev Dict := List (String × Option String)

/-- Python `data.get(k)`: `None` both when the key is absent and when the
stored value is `null`. -/
def dget (d : Dict) (k : String) : Option String :=
  match d.lookup k with
  | none => none
  | some v => v

/-- Python f-string interpolation of a possibly-`None` value:
`f"{x}"` renders `None` as the string `"None"`. -/
def pystr : Option String → String
  | none => "None"
  | some s => s

/-- Python `str(data.get('checks', ''))`: the default `''` is used only when
the key is absent; a stored `null` becomes `str(None) = "None"`. -/
def checksStr (d : Dict) : String :=
  match d.lookup "checks" with
  | none => ""
  | some none => "None"
  | some (some s) => s

/-- The fixed GitHub Actions workflow text (`GITHUB_WORKFLOW_YAML`). -/
def GITHUB_WORKFLOW_YAML : String := "
name: Deploy to GitHub Pages
on:
  push:
    branches: [ main ]
jobs:
  build-and-deploy:
    runs-on: ubuntu-latest
    steps:
      - name: Checkout 🛎️
        uses: actions/checkout@v3
      - name: Setup Pages
        uses: actions/configure-pages@v3
      - name: Upload artifact
        uses: actions/upload-pages-artifact@v2
        with:
          path: '.'
      - name: Deploy to GitHub Pages
        id: deployment
        uses: actions/deploy-pages@v2
"

/-- The fixed MIT license text (`MIT_LICENSE`). -/
def MIT_LICENSE : String := "
MIT License
Copyright (c) 2025 [Your Name or Username]
Permission is hereby granted, free of charge, to any person obtaining a copy
of this software and associated documentation files (the \"Software\"), to deal
in the Software without restriction, including without limitation the rights
to use, copy, modify, merge, publish, distribute, sublicense, and/or sell
copies of the Software, and to permit persons to whom the Software is
furnished to do so, subject to the following conditions:
The above copyright notice and this permission notice shall be included in all
copies or substantial portions of the Software.
THE SOFTWARE IS PROVIDED \"AS IS\", WITHOUT WARRANTY OF ANY KIND, EXPRESS OR
IMPLIED, INCLUDING BUT NOT LIMITED TO THE WARRANTIES OF MERCHANTABILITY,
FITNESS FOR A PARTICULAR PURPOSE AND NONINFRINGEMENT. IN NO EVENT SHALL THE
AUTHORS OR COPYRIGHT HOLDERS BE LIABLE FOR ANY CLAIM, DAMAGES OR OTHER
LIABILITY, WHETHER IN AN ACTION OF CONTRACT, TORT OR OTHERWISE, ARISING FROM,
OUT OF OR IN CONNECTION WITH THE SOFTWARE OR THE USE OR OTHER DEALINGS IN THE
SOFTWARE.
"

/-- Outcome of one `requests.post` attempt: an HTTP status code, or a
`requests.exceptions.RequestException` (any transport-level error). -/
inductive Attempt where
  | status (code : Nat)
  | exn
deriving DecidableEq, Repr

/-- `True` exactly when the attempt returned HTTP 200
(`response.status_code == 200`); an exception never is. -/
def attemptOk : Attempt → Bool
  | .status code => code == 200
  | .exn => false

/-- Observable events of `notify_evaluator`: a POST attempt (by 0-based loop
index) and a `time.sleep(delay)`. -/
inductive NEvent where
  | post (i : Nat)
  | sleep (d : Nat)
deriving DecidableEq, Repr

/-- The retry loop body of `notify_evaluator`: `i` is the 0-based attempt
index, `delay` the current backoff, `remaining` the iterations left of
`range(max_retries)`.  Each iteration posts; on a 200 it returns `True`
immediately, otherwise it sleeps `delay` and doubles it. -/
def notify_go (resp : Nat → Attempt) : Nat → Nat → Nat → Bool × List NEvent
  | _, _, 0 => (false, [])
  | i, delay, remaining + 1 =>
    if attemptOk (resp i) then
      (true, [NEvent.post i])
    else
      let rest := notify_go resp (i + 1) (delay * 2) remaining
      (rest.1, NEvent.post i :: NEvent.sleep delay :: rest.2)

/-- `notify_evaluator(url, payload)` with the target's behaviour abstracted as
`resp : attempt index → outcome`: `delay = 1`, `max_retries = 5`. -/
def notify_evaluator (resp : Nat → Attempt) : Bool × List NEvent :=
  notify_go resp 0 1 5

/-- Number of POST attempts in a notifier event list. -/
def countPosts (evs : List NEvent) : Nat :=
  evs.countP fun e => match e with | .post _ => true | .sleep _ => false

/-- The JSON payload sent to the evaluation URL — exactly these seven keys. -/
structure Payload where
  email : Option String
  task : Option String
  round : Option String
  nonce : Option String
  repo_url : String
  commit_sha : String
  pages_url : String
deriving DecidableEq, Repr

/-- External effects performed by the background task, in order. -/
inductive Effect where
  | llmCall (prompt : String)
  | deleteRepo (name : String)
  | createRepo (name : String) (priv : Bool)
  | createFile (repoName path msg content : String)
  | getBranch (repoName branch : String)
  | notifyPost (url : String) (payload : Payload) (attempt : Nat)
  | sleepFor (d : Nat)
deriving DecidableEq, Repr

/-- The remote GitHub account state: repo name ↦ committed files
(path, commit message, content), in commit order.  GitHub repo names are
unique per account, so deletion removes the (sole) entry of that name. -/
abbrev GitState := List (String × List (String × String × String))

/-- `repo.create_file(path, msg, content)`: append the file to the named
repo's commit list. -/
def repoAddFile (g : GitState) (name path msg content : String) : GitState :=
  g.map fun r => if r.1 == name then (r.1, r.2 ++ [(path, msg, content)]) else r

/-- The code-generation prompt (`code_prompt`), an f-string over the request's
`brief` and `checks`. -/
def code_prompt (brief checks : String) : String :=
  s!"
        You are an expert web developer. Create a single, complete index.html file.
        Brief: {brief}
        The final code must be functional and self-contained.
        The final code must pass these checks: {checks}
        Generate only the full HTML file content and nothing else.
        "

/-- The README-generation prompt (`readme_prompt`), an f-string over `brief`
and the generated HTML. -/
def readme_prompt (brief generated_html : String) : String :=
  s!"
        You are a technical writer. Create a professional README.md for a project.
        Project Brief: {brief}
        The project was implemented with the following code:
        ```html
        {generated_html}
        ```
        Generate a complete README.md file with the following sections:
        - A project title.
        - A brief one-paragraph summary of what the application does.
        - A \"How It Works\" section explaining the code's functionality.
        - A \"License\" section mentioning it is MIT licensed.
        Generate only the markdown content for the file.
        "

/-- `pages_url = f"https://{user.login}.github.io/{repo_name}/"`. -/
def pages_url_of (login repo_name : String) : String :=
  "https://" ++ login ++ ".github.io/" ++ repo_name ++ "/"

/-- `repo.html_url` for a repo of the authenticated account. -/
def repo_html_url (login repo_name : String) : String :=
  "https://github.com/" ++ login ++ "/" ++ repo_name

/-- The external world as seen by one background task: a deterministic LLM
oracle (`Except` models an API call that may raise), the current GitHub
account state, the authenticated `user.login`, the sha reported by
`get_branch("main").commit.sha` after the four commits, and the notification
target's behaviour per attempt. -/
structure Env where
  llm : String → Except Unit String
  git : GitState
  login : String
  branchSha : String
  notifyResp : Nat → Attempt

/-- Map the notifier's events into the task trace, tagging each POST with the
URL and the payload it carries. -/
def notifyEffects (url : String) (p : Payload) (evs : List NEvent) : List Effect :=
  evs.map fun e =>
    match e with
    | .post i => Effect.notifyPost url p i
    | .sleep d => Effect.sleepFor d

/-- `process_build_task(data)`: the whole background task.  Returns the final
GitHub state and the trace of external effects.  The `try/except Exception`
wrapping the body is embedded by totality: when an LLM call errors the
function returns normally with the truncated trace (nothing propagates). -/
def process_build_task (env : Env) (data : Dict) : GitState × List Effect :=
  let task_id := dget data "task"
  let brief := dget data "brief"
  let checks := checksStr data
  let prompt1 := code_prompt (pystr brief) checks
  match env.llm prompt1 with
  | .error _ => (env.git, [Effect.llmCall prompt1])
  | .ok generated_html =>
    let prompt2 := readme_prompt (pystr brief) generated_html
    match env.llm prompt2 with
    | .error _ => (env.git, [Effect.llmCall prompt1, Effect.llmCall prompt2])
    | .ok generated_readme =>
      let repo_name := "llm-app-" ++ pystr task_id
      -- try: user.get_repo(repo_name).delete() except GithubException: pass
      let existed := (env.git.lookup repo_name).isSome
      let delEvents := if existed then [Effect.deleteRepo repo_name] else []
      let g0 := env.git.filter fun r => !(r.1 == repo_name)
      -- repo = user.create_repo(repo_name, private=False)
      let g1 : GitState := (repo_name, []) :: g0
      let g2 := repoAddFile g1 repo_name "LICENSE" "feat: add MIT license" MIT_LICENSE
      let g3 := repoAddFile g2 repo_name "README.md" "docs: generate professional readme" generated_readme
      let g4 := repoAddFile g3 repo_name "index.html" "feat: add application code" generated_html
      let g5 := repoAddFile g4 repo_name ".github/workflows/deploy.yml" "ci: add GitHub Pages deployment workflow" GITHUB_WORKFLOW_YAML
      let commit_sha := env.branchSha
      let repo_url := repo_html_url env.login repo_name
      let pages_url := pages_url_of env.login repo_name
      let baseTrace :=
        [Effect.llmCall prompt1, Effect.llmCall prompt2] ++ delEvents ++
        [Effect.createRepo repo_name false,
         Effect.createFile repo_name "LICENSE" "feat: add MIT license" MIT_LICENSE,
         Effect.createFile repo_name "README.md" "docs: generate professional readme" generated_readme,
         Effect.createFile repo_name "index.html" "feat: add application code" generated_html,
         Effect.createFile repo_name ".github/workflows/deploy.yml" "ci: add GitHub Pages deployment workflow" GITHUB_WORKFLOW_YAML,
         Effect.getBranch repo_name "main"]
      -- evaluation_url = data.get('evaluation_url'); if evaluation_url: ...
      let notifyTail :=
        match dget data "evaluation_url" with
        | none => []
        | some url =>
          if url == "" then []
          else
            let payload : Payload :=
              { email := dget data "email"
                task := task_id
                round := dget data "round"
                nonce := dget data "nonce"
                repo_url := repo_url
                commit_sha := commit_sha
                pages_url := pages_url }
            notifyEffects url payload (notify_evaluator env.notifyResp).2
      (g5, baseTrace ++ notifyTail)

/-- Python truthiness of `request.get_json()`: `None` (no JSON body) and the
empty object are falsy. -/
def bodyFalsy : Option Dict → Bool
  | none => true
  | some d => d.isEmpty

/-- `handle_build_request`: given the parsed JSON body (`none` when absent)
and `os.getenv("MY_APP_SECRET")`, returns the HTTP status, the JSON response
body as key-value pairs, and the list of background tasks spawned (each
carries the request data; the handler never runs them). -/
def handle_build_request (data : Option Dict) (expected_secret : Option String) :
    Nat × List (String × String) × List Dict :=
  if bodyFalsy data then
    (403, [("error", "Unauthorized")], [])
  else
    match data with
    | none => (403, [("error", "Unauthorized")], [])
    | some d =>
      if dget d "secret" ≠ expected_secret then
        (403, [("error", "Unauthorized")], [])
      else
        (200, [("status", "Request received and is being processed.")], [d])

/-- Does an effect create a file? -/
def isCreateFile : Effect → Bool
  | .createFile _ _ _ _ => true
  | _ => false

/-- Is an effect a notification POST? -/
def isNotifyPost : Effect → Bool
  | .notifyPost _ _ _ => true
  | _ => false

/-- Is an effect an LLM call? (The only effects a failed generation leaves.) -/
def isLlmCall : Effect → Bool
  | .llmCall _ => true
  | _ => false

/-- Number of repos named `n` in a GitHub account state. -/
def countRepo (g : GitState) (n : String) : Nat :=
  g.countP fun r => r.1 == n

/-- Boolean success test for an `Except` result (the LLM oracle). -/
def isOkE : Except Unit String → Bool
  | .ok _ => true
  | .error _ => false

/-- The deterministic repository name: `f"llm-app-{task_id}"`. -/
def repoNameOf (data : Dict) : String :=
  "llm-app-" ++ pystr (dget data "task")

/-- The four files committed by a successful run, in commit order, given the
two generated artifacts. -/
def expectedFiles (html readme : String) : List (String × String × String) :=
  [("LICENSE", "feat: add MIT license", MIT_LICENSE),
   ("README.md", "docs: generate professional readme", readme),
   ("index.html", "feat: add application code", html),
   (".github/workflows/deploy.yml", "ci: add GitHub Pages deployment workflow", GITHUB_WORKFLOW_YAML)]

/-- The notification payload a successful run builds from the request and the
publish result. -/
def taskPayload (env : Env) (data : Dict) : Payload :=
  { email := dget data "email"
    task := dget data "task"
    round := dget data "round"
    nonce := dget data "nonce"
    repo_url := repo_html_url env.login (repoNameOf data)
    commit_sha := env.branchSha
    pages_url := pages_url_of env.login (repoNameOf data) }

/-- Closed form of the notification part of a successful run's trace:
absent, `null` or empty-string `evaluation_url` values are Python-falsy and
skip notification entirely. -/
def notifyTailOf (env : Env) (data : Dict) : List Effect :=
  match dget data "evaluation_url" with
  | none => []
  | some url =>
    if url == "" then []
    else notifyEffects url (taskPayload env data) (notify_evaluator env.notifyResp).2

/-- A concrete environment whose LLM always answers `"H"` and whose
notification target always answers 503. -/
def envA : Env :=
  { llm := fun _ => Except.ok "H"
    git := []
    login := "octo"
    branchSha := "abc123"
    notifyResp := fun _ => Attempt.status 503 }

/-- A concrete environment whose LLM always raises. -/
def envF : Env :=
  { llm := fun _ => Except.error ()
    git := []
    login := "octo"
    branchSha := "abc123"
    notifyResp := fun _ => Attempt.status 503 }

/-- A request whose `evaluation_url` is supplied but is the empty string. -/
def dataEmptyUrl : Dict :=
  [("task", some "42"), ("evaluation_url", some "")]

/-- A request with a task id and no `evaluation_url`. -/
def dataNoUrl : Dict :=
  [("task", some "42")]

/-- A request with a task id and a nonempty `evaluation_url`. -/
def dataWithUrl : Dict :=
  [("task", some "42"), ("evaluation_url", some "https://eval.example/cb")]

/-- An attempt succeeds exactly when the response is HTTP status 200. -/
theorem attemptOk_eq_true_iff (a : Attempt) :
    attemptOk a = true ↔ a = Attempt.status 200 := by
  cases a with
  | status c => simp [attemptOk]
  | exn => simp [attemptOk]

/-- The loop returns `true` iff some attempt within the remaining budget
succeeds. -/
theorem notify_go_fst_iff (resp : Nat → Attempt) :
    ∀ n i d, (notify_go resp i d n).1 = true ↔
      ∃ j, j < n ∧ attemptOk (resp (i + j)) = true := by
  intro n
  induction n with
  | zero => intro i d; simp [notify_go]
  | succ m ih =>
    intro i d
    cases h : attemptOk (resp i) with
    | true =>
      simp only [notify_go, h, if_true]
      exact iff_of_true trivial ⟨0, Nat.succ_pos m, by simpa using h⟩
    | false =>
      simp only [notify_go, h, Bool.false_eq_true, if_false]
      rw [ih (i + 1) (d * 2)]
      constructor
      · rintro ⟨j, hj, hok⟩
        exact ⟨j + 1, by omega, by rw [show i + (j + 1) = i + 1 + j by omega]; exact hok⟩
      · rintro ⟨j, hj, hok⟩
        cases j with
        | zero => rw [Nat.add_zero] at hok; rw [hok] at h; cases h
        | succ j' =>
          exact ⟨j', by omega, by rw [show i + 1 + j' = i + (j' + 1) by omega]; exact hok⟩

/-- C2: against a target that always answers non-200, the notifier makes
exactly 5 POST attempts, with inter-attempt delays 1, 2, 4, 8 (and a final
sleep of 16 after the last attempt), and returns `false`. -/
theorem notifier_five_failures (resp : Nat → Attempt)
    (h : ∀ i, i < 5 → attemptOk (resp i) = false) :
    notify_evaluator resp =
      (false,
       [NEvent.post 0, NEvent.sleep 1, NEvent.post 1, NEvent.sleep 2,
        NEvent.post 2, NEvent.sleep 4, NEvent.post 3, NEvent.sleep 8,
        NEvent.post 4, NEvent.sleep 16]) ∧
    countPosts (notify_evaluator resp).2 = 5 := by
  have e : notify_evaluator resp =
      (false,
       [NEvent.post 0, NEvent.sleep 1, NEvent.post 1, NEvent.sleep 2,
        NEvent.post 2, NEvent.sleep 4, NEvent.post 3, NEvent.sleep 8,
        NEvent.post 4, NEvent.sleep 16]) := by
    simp [notify_evaluator, notify_go, h 0 (by norm_num), h 1 (by norm_num),
          h 2 (by norm_num), h 3 (by norm_num), h 4 (by norm_num)]
  refine ⟨e, ?_⟩
  rw [e]
  rfl

/-- Witness for C2 at a target that always answers 503. -/
theorem notifier_five_failures_witness :
    notify_evaluator (fun _ => Attempt.status 503) =
      (false,
       [NEvent.post 0, NEvent.sleep 1, NEvent.post 1, NEvent.sleep 2,
        NEvent.post 2, NEvent.sleep 4, NEvent.post 3, NEvent.sleep 8,
        NEvent.post 4, NEvent.sleep 16]) ∧
    countPosts (notify_evaluator (fun _ => Attempt.status 503)).2 = 5 :=
  notifier_five_failures (fun _ => Attempt.status 503) (fun _ _ => rfl)

/-- C3: if the target first answers 200 on attempt `k` (1 ≤ k ≤ 5), the
notifier makes exactly `k` POST attempts and returns `true`. -/
theorem notifier_success_on_attempt_k (resp : Nat → Attempt) (k : Nat)
    (hk1 : 1 ≤ k) (hk5 : k ≤ 5)
    (hfail : ∀ i, i + 1 < k → attemptOk (resp i) = false)
    (hsucc : attemptOk (resp (k - 1)) = true) :
    (notify_evaluator resp).1 = true ∧
    countPosts (notify_evaluator resp).2 = k := by
  interval_cases k
  · norm_num at hsucc
    simp [notify_evaluator, notify_go, countPosts, hsucc]
  · norm_num at hsucc
    simp [notify_evaluator, notify_go, countPosts, hsucc,
          hfail 0 (by norm_num)]
  · norm_num at hsucc
    simp [notify_evaluator, notify_go, countPosts, hsucc,
          hfail 0 (by norm_num), hfail 1 (by norm_num)]
  · norm_num at hsucc
    simp [notify_evaluator, notify_go, countPosts, hsucc,
          hfail 0 (by norm_num), hfail 1 (by norm_num), hfail 2 (by norm_num)]
  · norm_num at hsucc
    simp [notify_evaluator, notify_go, countPosts, hsucc,
          hfail 0 (by norm_num), hfail 1 (by norm_num), hfail 2 (by norm_num),
          hfail 3 (by norm_num)]

/-- Witness for C3 at k = 3: failures on attempts 1 and 2, then a 200. -/
theorem notifier_success_on_attempt_k_witness :
    (notify_evaluator (fun i => if i < 2 then Attempt.status 500 else Attempt.status 200)).1 = true ∧
    countPosts (notify_evaluator (fun i => if i < 2 then Attempt.status 500 else Attempt.status 200)).2 = 3 :=
  notifier_success_on_attempt_k
    (fun i => if i < 2 then Attempt.status 500 else Attempt.status 200) 3
    (by norm_num) (by norm_num)
    (by intro i hi
        have h2 : i = 0 ∨ i = 1 := by omega
        rcases h2 with rfl | rfl <;> rfl)
    (by rfl)

/-- C4: the notifier returns `true` iff one of the (at most 5) attempts
answers exactly HTTP 200; any other status and any transport-level exception
count as failures, and the function is total — it returns a boolean for every
target behaviour, never propagating an error. -/
theorem notifier_success_iff_status200 (resp : Nat → Attempt) :
    (notify_evaluator resp).1 = true ↔
      ∃ i, i < 5 ∧ resp i = Attempt.status 200 := by
  rw [notify_evaluator, notify_go_fst_iff]
  constructor
  · rintro ⟨j, hj, hok⟩
    exact ⟨j, hj, (attemptOk_eq_true_iff _).mp (by simpa using hok)⟩
  · rintro ⟨i, hi, hok⟩
    exact ⟨i, hi, by simpa using (attemptOk_eq_true_iff (resp i)).mpr hok⟩

/-- C1: when the JSON body is absent, or its `secret` field differs from the
configured expected secret, the handler answers 403 with
`{"error": "Unauthorized"}` and spawns no background task (so no generation,
publish or notification work happens). -/
theorem handler_unauthorized_no_work (data : Option Dict) (expected_secret : Option String)
    (h : data = none ∨ ∃ d, data = some d ∧ dget d "secret" ≠ expected_secret) :
    handle_build_request data expected_secret = (403, [("error", "Unauthorized")], []) := by
  rcases h with rfl | ⟨d, rfl, hs⟩
  · rfl
  · cases he : d.isEmpty with
    | true => simp [handle_build_request, bodyFalsy, he]
    | false => simp [handle_build_request, bodyFalsy, he, hs]

/-- Witness for C1 at an absent body. -/
theorem handler_unauthorized_no_work_witness :
    handle_build_request none (some "S") = (403, [("error", "Unauthorized")], []) :=
  handler_unauthorized_no_work none (some "S") (Or.inl rfl)

/-- Counterexample to C9 as stated: a request passing the secret check gets
status 200, but the response body is
`{"status": "Request received and is being processed."}`, not
`{"status": "accepted"}`. -/
theorem handler_body_not_accepted :
    (handle_build_request (some [("secret", some "S")]) (some "S")).1 = 200 ∧
    (handle_build_request (some [("secret", some "S")]) (some "S")).2.1 ≠
      [("status", "accepted")] := by
  exact ⟨rfl, by decide⟩

/-- C9 (amended): every request passing the secret validation gets status 200
with body `{"status": "Request received and is being processed."}` and spawns
exactly one background task carrying the request data, which the handler does
not execute; and the endpoint only ever produces status 200 or 403. -/
theorem handler_ack_response (data : Option Dict) (expected_secret : Option String) :
    ((handle_build_request data expected_secret).1 = 200 ∨
     (handle_build_request data expected_secret).1 = 403) ∧
    (∀ d, data = some d → d ≠ [] → dget d "secret" = expected_secret →
      handle_build_request data expected_secret =
        (200, [("status", "Request received and is being processed.")], [d])) := by
  constructor
  · rcases data with _ | d
    · exact Or.inr rfl
    · cases he : d.isEmpty with
      | true => right; simp [handle_build_request, bodyFalsy, he]
      | false =>
        by_cases hs : dget d "secret" = expected_secret
        · left; simp [handle_build_request, bodyFalsy, he, hs]
        · right; simp [handle_build_request, bodyFalsy, he, hs]
  · rintro d rfl hne hs
    have he : d.isEmpty = false := by
      cases d with
      | nil => exact absurd rfl hne
      | cons a t => rfl
    simp [handle_build_request, bodyFalsy, he, hs]

/-- Witness for C9 (amended) at a concrete passing request. -/
theorem handler_ack_response_witness :
    handle_build_request (some [("secret", some "S")]) (some "S") =
      (200, [("status", "Request received and is being processed.")],
       [[("secret", some "S")]]) :=
  (handler_ack_response (some [("secret", some "S")]) (some "S")).2
    [("secret", some "S")] rfl (by decide) rfl

/-- Counterexample to C10 as stated: with the expected secret unset, a request
whose JSON body is present but is the empty object (hence lacks `secret`) is
rejected with 403 — the empty dict is Python-falsy — rather than accepted with
200. -/
theorem handler_empty_body_rejected :
    handle_build_request (some []) none = (403, [("error", "Unauthorized")], []) ∧
    (handle_build_request (some []) none).1 ≠ 200 := by
  exact ⟨rfl, by decide⟩

/-- C10 (amended): with the expected secret unset, every request whose JSON
body is a nonempty object lacking the `secret` field (or holding it as `null`)
passes validation: status 200 and one background task spawned. -/
theorem handler_unset_secret_accepts (d : Dict) (hne : d ≠ [])
    (hs : dget d "secret" = none) :
    handle_build_request (some d) none =
      (200, [("status", "Request received and is being processed.")], [d]) := by
  have he : d.isEmpty = false := by
    cases d with
    | nil => exact absurd rfl hne
    | cons a t => rfl
  simp [handle_build_request, bodyFalsy, he, hs]

/-- Witness for C10 (amended) at a one-field body without `secret`. -/
theorem handler_unset_secret_accepts_witness :
    handle_build_request (some [("task", some "42")]) none =
      (200, [("status", "Request received and is being processed.")],
       [[("task", some "42")]]) :=
  handler_unset_secret_accepts [("task", some "42")] (by decide) rfl

/-- Adding a file to a state headed by the target repo, whose tail holds no
repo of that name, appends the file to the head repo only. -/
theorem repoAddFile_cons_filter (g : GitState) (name path msg content : String)
    (fs : List (String × String × String)) :
    repoAddFile ((name, fs) :: g.filter fun r => !(r.1 == name)) name path msg content =
      (name, fs ++ [(path, msg, content)]) :: (g.filter fun r => !(r.1 == name)) := by
  unfold repoAddFile
  rw [List.map_cons]
  congr 1
  · simp
  · have hid : ∀ r ∈ g.filter (fun r => !(r.1 == name)),
        (if r.1 == name then (r.1, r.2 ++ [(path, msg, content)]) else r) = r := by
      intro r hr
      have hne := (List.mem_filter.mp hr).2
      simp only [Bool.not_eq_true'] at hne
      simp [hne]
    calc (g.filter fun r => !(r.1 == name)).map
            (fun r => if r.1 == name then (r.1, r.2 ++ [(path, msg, content)]) else r)
        = (g.filter fun r => !(r.1 == name)).map id := List.map_congr_left hid
      _ = g.filter fun r => !(r.1 == name) := List.map_id _

/-- Closed form of a successful run of the background task: both LLM calls
succeed, the repo is deleted if it existed, recreated, the four files are
committed in order, the branch is read, and the notification tail follows. -/
theorem process_build_task_run (env : Env) (data : Dict) (html readme : String)
    (h1 : env.llm (code_prompt (pystr (dget data "brief")) (checksStr data)) = Except.ok html)
    (h2 : env.llm (readme_prompt (pystr (dget data "brief")) html) = Except.ok readme) :
    process_build_task env data =
      ((repoNameOf data, expectedFiles html readme) ::
          (env.git.filter fun r => !(r.1 == repoNameOf data)),
       ([Effect.llmCall (code_prompt (pystr (dget data "brief")) (checksStr data)),
         Effect.llmCall (readme_prompt (pystr (dget data "brief")) html)] ++
        (if (env.git.lookup (repoNameOf data)).isSome
           then [Effect.deleteRepo (repoNameOf data)] else []) ++
        [Effect.createRepo (repoNameOf data) false,
         Effect.createFile (repoNameOf data) "LICENSE" "feat: add MIT license" MIT_LICENSE,
         Effect.createFile (repoNameOf data) "README.md" "docs: generate professional readme" readme,
         Effect.createFile (repoNameOf data) "index.html" "feat: add application code" html,
         Effect.createFile (repoNameOf data) ".github/workflows/deploy.yml"
           "ci: add GitHub Pages deployment workflow" GITHUB_WORKFLOW_YAML,
         Effect.getBranch (repoNameOf data) "main"]) ++ notifyTailOf env data) := by
  unfold process_build_task
  simp only [h1, h2]
  rw [repoAddFile_cons_filter, repoAddFile_cons_filter, repoAddFile_cons_filter,
      repoAddFile_cons_filter]
  rfl

/-- Filtering a repo name out leaves no repo of that name. -/
theorem countP_filter_self (g : GitState) (name : String) :
    ((g.filter fun r => !(r.1 == name)).countP fun r => r.1 == name) = 0 := by
  induction g with
  | nil => rfl
  | cons a t ih =>
    cases h : a.1 == name with
    | true => simp [List.filter_cons, h, ih]
    | false => simp [List.filter_cons, h, List.countP_cons, ih]

/-- The notifier's mapped events contain no file-creation effect. -/
theorem notifyEffects_countP_isCreateFile (url : String) (p : Payload) (evs : List NEvent) :
    (notifyEffects url p evs).countP isCreateFile = 0 := by
  induction evs with
  | nil => rfl
  | cons e t ih =>
    cases e <;> simp [notifyEffects, List.countP_cons, isCreateFile, ih] <;>
      simpa [notifyEffects] using ih

/-- The notification tail of a run's trace contains no file-creation effect. -/
theorem notifyTail_countP_isCreateFile (env : Env) (data : Dict) :
    (notifyTailOf env data).countP isCreateFile = 0 := by
  unfold notifyTailOf
  cases dget data "evaluation_url" with
  | none => rfl
  | some url =>
    cases h : url == "" with
    | true => simp [h]
    | false => simp [h, notifyEffects_countP_isCreateFile]

/-- With no `evaluation_url` (absent or `null`), the notification tail is
empty. -/
theorem notifyTailOf_none (env : Env) (data : Dict)
    (hu : dget data "evaluation_url" = none) :
    notifyTailOf env data = [] := by
  unfold notifyTailOf
  rw [hu]

/-- With an empty-string `evaluation_url`, the notification tail is empty. -/
theorem notifyTailOf_empty (env : Env) (data : Dict)
    (hu : dget data "evaluation_url" = some "") :
    notifyTailOf env data = [] := by
  unfold notifyTailOf
  rw [hu]
  rfl

/-- With a nonempty `evaluation_url`, the notification tail is the notifier's
events carrying that URL and the task payload. -/
theorem notifyTailOf_some (env : Env) (data : Dict) (url : String)
    (hu : dget data "evaluation_url" = some url) (hne : (url == "") = false) :
    notifyTailOf env data =
      notifyEffects url (taskPayload env data) (notify_evaluator env.notifyResp).2 := by
  unfold notifyTailOf
  rw [hu]
  show (if (url == "") = true then [] else _) = _
  simp [hne]

/-- Every effect in the notifier's mapped events is a POST with exactly the
given URL and payload, or a sleep. -/
theorem mem_notifyEffects (url : String) (p : Payload) (evs : List NEvent) (x : Effect)
    (hx : x ∈ notifyEffects url p evs) :
    (∃ i, x = Effect.notifyPost url p i) ∨ ∃ d, x = Effect.sleepFor d := by
  rcases List.mem_map.mp (by simpa [notifyEffects] using hx) with ⟨ev, hev, heq⟩
  cases ev with
  | post i => exact Or.inl ⟨i, heq.symm⟩
  | sleep d => exact Or.inr ⟨d, heq.symm⟩

/-- The notifier always POSTs at least once, starting with attempt 0. -/
theorem notify_events_head (resp : Nat → Attempt) :
    ∃ rest, (notify_evaluator resp).2 = NEvent.post 0 :: rest := by
  cases h : attemptOk (resp 0) with
  | true =>
    refine ⟨[], ?_⟩
    simp [notify_evaluator, notify_go, h]
  | false =>
    refine ⟨NEvent.sleep 1 :: (notify_go resp 1 2 4).2, ?_⟩
    simp [notify_evaluator, notify_go, h]

/-- C5: the repository name is derived deterministically as the fixed
`llm-app-` text followed by the task identifier, and running the publisher a
second time with the same task (after a first successful run) leaves exactly
one repository of that name, holding the second run's four files. -/
theorem publisher_idempotent_overwrite (env1 env2 : Env) (data : Dict)
    (html1 readme1 html2 readme2 : String)
    (h11 : env1.llm (code_prompt (pystr (dget data "brief")) (checksStr data)) = Except.ok html1)
    (h12 : env1.llm (readme_prompt (pystr (dget data "brief")) html1) = Except.ok readme1)
    (h21 : env2.llm (code_prompt (pystr (dget data "brief")) (checksStr data)) = Except.ok html2)
    (h22 : env2.llm (readme_prompt (pystr (dget data "brief")) html2) = Except.ok readme2) :
    repoNameOf data = "llm-app-" ++ pystr (dget data "task") ∧
    countRepo (process_build_task
        { env2 with git := (process_build_task env1 data).1 } data).1 (repoNameOf data) = 1 ∧
    (process_build_task
        { env2 with git := (process_build_task env1 data).1 } data).1.lookup (repoNameOf data) =
      some (expectedFiles html2 readme2) := by
  have e2 := process_build_task_run
    { env2 with git := (process_build_task env1 data).1 } data html2 readme2 h21 h22
  refine ⟨rfl, ?_, ?_⟩
  · rw [e2]
    simp [countRepo, List.countP_cons, countP_filter_self]
  · rw [e2]
    simp [List.lookup]

/-- Witness for C5: the same environment run twice on a concrete task. -/
theorem publisher_idempotent_overwrite_witness :
    repoNameOf dataNoUrl = "llm-app-" ++ pystr (dget dataNoUrl "task") ∧
    countRepo (process_build_task
        { envA with git := (process_build_task envA dataNoUrl).1 } dataNoUrl).1
        (repoNameOf dataNoUrl) = 1 ∧
    (process_build_task
        { envA with git := (process_build_task envA dataNoUrl).1 } dataNoUrl).1.lookup
        (repoNameOf dataNoUrl) = some (expectedFiles "H" "H") :=
  publisher_idempotent_overwrite envA envA dataNoUrl "H" "H" "H" "H" rfl rfl rfl rfl

/-- C6: after creating the repository, the run commits exactly four files, in
this order and at these paths — the fixed license at `LICENSE`, the generated
documentation at `README.md`, the generated code at `index.html`, the fixed
workflow at `.github/workflows/deploy.yml` — then reads the `main` branch
head, and the pages URL is `https://<login>.github.io/<repo-name>/`. -/
theorem publisher_four_files_then_branch (env : Env) (data : Dict) (html readme : String)
    (h1 : env.llm (code_prompt (pystr (dget data "brief")) (checksStr data)) = Except.ok html)
    (h2 : env.llm (readme_prompt (pystr (dget data "brief")) html) = Except.ok readme) :
    (∃ rest,
       (process_build_task env data).2 =
         ([Effect.llmCall (code_prompt (pystr (dget data "brief")) (checksStr data)),
           Effect.llmCall (readme_prompt (pystr (dget data "brief")) html)] ++
          (if (env.git.lookup (repoNameOf data)).isSome
             then [Effect.deleteRepo (repoNameOf data)] else []) ++
          [Effect.createRepo (repoNameOf data) false,
           Effect.createFile (repoNameOf data) "LICENSE" "feat: add MIT license" MIT_LICENSE,
           Effect.createFile (repoNameOf data) "README.md" "docs: generate professional readme" readme,
           Effect.createFile (repoNameOf data) "index.html" "feat: add application code" html,
           Effect.createFile (repoNameOf data) ".github/workflows/deploy.yml"
             "ci: add GitHub Pages deployment workflow" GITHUB_WORKFLOW_YAML,
           Effect.getBranch (repoNameOf data) "main"]) ++ rest) ∧
    (process_build_task env data).2.countP isCreateFile = 4 ∧
    pages_url_of env.login (repoNameOf data) =
      "https://" ++ env.login ++ ".github.io/" ++ repoNameOf data ++ "/" := by
  have e := process_build_task_run env data html readme h1 h2
  refine ⟨⟨notifyTailOf env data, by rw [e]⟩, ?_, rfl⟩
  rw [e]
  rw [List.countP_append]
  rw [notifyTail_countP_isCreateFile]
  cases hc : (env.git.lookup (repoNameOf data)).isSome with
  | true => simp [List.countP_append, List.countP_cons, isCreateFile]
  | false => simp [List.countP_append, List.countP_cons, isCreateFile]

/-- Witness for C6 at a concrete environment and request. -/
theorem publisher_four_files_then_branch_witness :
    (∃ rest,
       (process_build_task envA dataNoUrl).2 =
         ([Effect.llmCall (code_prompt (pystr (dget dataNoUrl "brief")) (checksStr dataNoUrl)),
           Effect.llmCall (readme_prompt (pystr (dget dataNoUrl "brief")) "H")] ++
          (if (envA.git.lookup (repoNameOf dataNoUrl)).isSome
             then [Effect.deleteRepo (repoNameOf dataNoUrl)] else []) ++
          [Effect.createRepo (repoNameOf dataNoUrl) false,
           Effect.createFile (repoNameOf dataNoUrl) "LICENSE" "feat: add MIT license" MIT_LICENSE,
           Effect.createFile (repoNameOf dataNoUrl) "README.md" "docs: generate professional readme" "H",
           Effect.createFile (repoNameOf dataNoUrl) "index.html" "feat: add application code" "H",
           Effect.createFile (repoNameOf dataNoUrl) ".github/workflows/deploy.yml"
             "ci: add GitHub Pages deployment workflow" GITHUB_WORKFLOW_YAML,
           Effect.getBranch (repoNameOf dataNoUrl) "main"]) ++ rest) ∧
    (process_build_task envA dataNoUrl).2.countP isCreateFile = 4 ∧
    pages_url_of envA.login (repoNameOf dataNoUrl) =
      "https://" ++ envA.login ++ ".github.io/" ++ repoNameOf dataNoUrl ++ "/" :=
  publisher_four_files_then_branch envA dataNoUrl "H" "H" rfl rfl

/-- C7: if a language-model call errors, the GitHub state is untouched and the
trace holds nothing but the LLM calls themselves — no repository effect and no
notification POST; the task still returns normally (the embedding is total),
so nothing propagates out of the background task. -/
theorem generation_failure_no_side_effects (env : Env) (data : Dict)
    (h : isOkE (env.llm (code_prompt (pystr (dget data "brief")) (checksStr data))) = false ∨
         ∃ html, env.llm (code_prompt (pystr (dget data "brief")) (checksStr data)) = Except.ok html ∧
           isOkE (env.llm (readme_prompt (pystr (dget data "brief")) html)) = false) :
    (process_build_task env data).1 = env.git ∧
    (process_build_task env data).2.all isLlmCall = true := by
  rcases h with h | ⟨html, hok, h⟩
  · cases he : env.llm (code_prompt (pystr (dget data "brief")) (checksStr data)) with
    | ok v => rw [he] at h; exact absurd h (by simp [isOkE])
    | error e =>
      unfold process_build_task
      simp only [he]
      exact ⟨trivial, rfl⟩
  · cases he : env.llm (readme_prompt (pystr (dget data "brief")) html) with
    | ok v => rw [he] at h; exact absurd h (by simp [isOkE])
    | error e =>
      unfold process_build_task
      simp only [hok, he]
      exact ⟨trivial, rfl⟩

/-- Witness for C7: an environment whose LLM always raises. -/
theorem generation_failure_no_side_effects_witness :
    (process_build_task envF []).1 = envF.git ∧
    (process_build_task envF []).2.all isLlmCall = true :=
  generation_failure_no_side_effects envF [] (Or.inl rfl)

/-- Counterexample to C8 as stated: a request that supplies `evaluation_url`
as the empty string performs zero callback POSTs — Python treats the empty
string as falsy — although the claim requires a POST whenever the field is
supplied. -/
theorem empty_evaluation_url_skips_notify :
    dget dataEmptyUrl "evaluation_url" = some "" ∧
    (process_build_task envA dataEmptyUrl).2.countP isNotifyPost = 0 :=
  ⟨rfl, rfl⟩

/-- C8 (amended): when `evaluation_url` is absent or `null` the task performs
zero callback POSTs while still committing the four files; when it is supplied
with a nonempty value `url`, a POST to `url` carrying exactly the payload
{email, task, round, nonce, repo_url, commit_sha, pages_url} occurs, and every
POST in the trace goes to `url` with exactly that payload. -/
theorem notify_exact_payload (env : Env) (data : Dict) (html readme : String)
    (h1 : env.llm (code_prompt (pystr (dget data "brief")) (checksStr data)) = Except.ok html)
    (h2 : env.llm (readme_prompt (pystr (dget data "brief")) html) = Except.ok readme) :
    (dget data "evaluation_url" = none →
       (process_build_task env data).2.countP isNotifyPost = 0 ∧
       (process_build_task env data).2.countP isCreateFile = 4) ∧
    (∀ url, dget data "evaluation_url" = some url → url ≠ "" →
       Effect.notifyPost url (taskPayload env data) 0 ∈ (process_build_task env data).2) ∧
    (∀ u p i, Effect.notifyPost u p i ∈ (process_build_task env data).2 →
       ∃ url, dget data "evaluation_url" = some url ∧ u = url ∧ p = taskPayload env data) := by
  have e := process_build_task_run env data html readme h1 h2
  refine ⟨?_, ?_, ?_⟩
  · intro hu
    constructor
    · rw [e, notifyTailOf_none env data hu]
      cases hc : (env.git.lookup (repoNameOf data)).isSome with
      | true => simp [List.countP_append, List.countP_cons, isNotifyPost]
      | false => simp [List.countP_append, List.countP_cons, isNotifyPost]
    · rw [e, notifyTailOf_none env data hu]
      cases hc : (env.git.lookup (repoNameOf data)).isSome with
      | true => simp [List.countP_append, List.countP_cons, isCreateFile]
      | false => simp [List.countP_append, List.countP_cons, isCreateFile]
  · intro url hu hne
    have hne' : (url == "") = false := by
      cases hb : url == "" with
      | true => exact absurd (by simpa using hb) hne
      | false => rfl
    rw [e]
    apply List.mem_append_right
    rw [notifyTailOf_some env data url hu hne']
    obtain ⟨rest, hr⟩ := notify_events_head env.notifyResp
    rw [hr]
    simp only [notifyEffects, List.map_cons]
    exact List.mem_cons_self _ _
  · intro u p i hmem
    rw [e] at hmem
    rcases List.mem_append.mp hmem with hb | ht
    · exfalso
      revert hb
      cases hc : (env.git.lookup (repoNameOf data)).isSome with
      | true => simp
      | false => simp
    · cases hu : dget data "evaluation_url" with
      | none =>
        rw [notifyTailOf_none env data hu] at ht
        cases ht
      | some url =>
        cases hb : url == "" with
        | true =>
          have hurl : url = "" := by simpa using hb
          rw [hurl] at hu
          rw [notifyTailOf_empty env data hu] at ht
          cases ht
        | false =>
          rw [notifyTailOf_some env data url hu hb] at ht
          rcases mem_notifyEffects _ _ _ _ ht with ⟨j, heq⟩ | ⟨d, heq⟩
          · simp only [Effect.notifyPost.injEq] at heq
            exact ⟨url, rfl, heq.1, heq.2.1⟩
          · simp at heq

/-- Witness for C8 (amended): a concrete run with a nonempty callback URL
contains the exact-payload POST. -/
theorem notify_exact_payload_witness :
    Effect.notifyPost "https://eval.example/cb" (taskPayload envA dataWithUrl) 0 ∈
      (process_build_task envA dataWithUrl).2 :=
  (notify_exact_payload envA dataWithUrl "H" "H" rfl rfl).2.1
    "https://eval.example/cb" rfl (by decide)
